import Mathlib

/-!
Shallow embedding of reana_workflow_engine_serial/utils.py.

Conventions used throughout this development:
* Python dictionaries that model workflow steps become Lean structures;
  Python structural equality of dictionaries corresponds to decidable
  equality of the structures.
* Python functions that can raise return Except PyErr.
* Optional string parameters keep Python truthiness: None and the empty
  string are both falsy.
* The message-queue publisher is modeled by returning the event that the
  code hands to publisher.publish_workflow_status.
-/

/-- Errors raised by the embedded Python code. -/
inductive PyErr where
  | indexError
  | keyError
  | fileExistsError
  | distutilsFileError
deriving DecidableEq

/-- A workflow step: a dictionary with a name and a list of command strings. -/
structure Step where
  name : String
  commands : List String
deriving DecidableEq

/-- The expanded workflow json, as far as utils.py reads it: its steps list. -/
structure WorkflowJson where
  steps : List Step
deriving DecidableEq

/-- A progress bucket such as (dictionary with total and job_ids keys). -/
structure JobBucket where
  total : Nat
  job_ids : List String
deriving DecidableEq

/-- The reana_commons build_progress_message payload: one optional bucket
per progress category, present exactly when the corresponding argument is
passed. -/
structure ProgressMessage where
  total : Option JobBucket
  running : Option JobBucket
  finished : Option JobBucket
  failed : Option JobBucket
  cached : Option JobBucket
deriving DecidableEq

/-- External collaborator reana_commons.utils.build_progress_message:
collects the optional buckets into one payload. -/
def build_progress_message (total running finished failed cached : Option JobBucket) :
    ProgressMessage :=
  ⟨total, running, finished, failed, cached⟩

/-- A job specification dictionary, kept abstract as string key-value pairs;
the publishers only forward it. -/
abbrev JobSpec := List (String × String)

/-- The reana_commons build_caching_info_message payload. -/
structure CachingInfo where
  job_spec : JobSpec
  job_id : String
  workflow_workspace : String
  step : Step
  cache_dir_path : String
deriving DecidableEq

/-- The message dictionary handed to publisher.publish_workflow_status:
each field is present exactly when the code sets the corresponding key.
The pod_name key, when present, holds the result of os.getenv, which may
itself be None. -/
structure MQMessage where
  progress : Option ProgressMessage
  caching_info : Option CachingInfo
  pod_name : Option (Option String)
deriving DecidableEq

/-- One call to publisher.publish_workflow_status. -/
structure PublishedStatus where
  workflow_uuid : String
  status : Nat
  message : MQMessage
deriving DecidableEq

/-! ## get_targeted_workflow_steps (utils.py lines 203-243) -/

/-- Python str.lower, modelled character by character (basic latin letters,
which is what workflow step names use). -/
def py_lower (s : String) : String :=
  ⟨s.data.map Char.toLower⟩

/-- The case-insensitive name comparison used by the step generators:
step["name"].lower() == query.lower(). -/
def matches_name (query : String) (step : Step) : Bool :=
  py_lower step.name == py_lower query

/-- Resolution of from_step_idx: 0 when from_step is falsy (None or empty),
otherwise the first index whose step name matches, defaulting to 0. -/
def resolved_from_index (steps : List Step) (from_step : Option String) : Nat :=
  match from_step with
  | none => 0
  | some q => if q = "" then 0 else (steps.findIdx? (matches_name q)).getD 0

/-- Resolution of target_step_idx: the list length when target_step is falsy,
otherwise one past the first index whose step name matches, defaulting to the
list length. -/
def resolved_target_index (steps : List Step) (target_step : Option String) : Nat :=
  match target_step with
  | none => steps.length
  | some q =>
    if q = "" then steps.length
    else ((steps.findIdx? (matches_name q)).map (· + 1)).getD steps.length

/-- Python list slicing steps[a:b] for nonnegative indices. -/
def pySlice (l : List Step) (a b : Nat) : List Step :=
  (l.take b).drop a

/-- utils.get_targeted_workflow_steps: resolve both indices, return the
slice when from_step_idx is at most target_step_idx, otherwise log an
error and return the full step list. -/
def get_targeted_workflow_steps (workflow_json : WorkflowJson)
    (target_step : Option String) (from_step : Option String) : List Step :=
  let steps := workflow_json.steps
  let from_step_idx := resolved_from_index steps from_step
  let target_step_idx := resolved_target_index steps target_step
  if from_step_idx ≤ target_step_idx then
    pySlice steps from_step_idx target_step_idx
  else
    steps

/-- A list is a contiguous slice of another when it occurs inside it. -/
def contiguous_slice_of (l' l : List Step) : Prop :=
  ∃ s t, s ++ l' ++ t = l

/-! ## check_cache (utils.py lines 65-73) -/

/-- A parsed JSON value, as far as check_cache inspects one. -/
inductive JVal where
  | null
  | bool (b : Bool)
  | str (s : String)
  | num (n : Int)
  | arr (elems : List JVal)
  | obj (fields : List (String × JVal))

/-- Python truthiness for a parsed JSON value. -/
def py_truthy : JVal → Bool
  | JVal.null => false
  | JVal.bool b => b
  | JVal.str s => !s.isEmpty
  | JVal.num n => n != 0
  | JVal.arr elems => !elems.isEmpty
  | JVal.obj fields => !fields.isEmpty

/-- A parsed JSON object body: association list of fields. -/
abbrev JObj := List (String × JVal)

/-- utils.check_cache, applied to the parsed response body: result["cached"]
raises KeyError when the key is absent; a truthy value returns the whole
body, anything else returns the empty dictionary. -/
def check_cache (result : JObj) : Except PyErr JObj :=
  match result.lookup "cached" with
  | none => Except.error PyErr.keyError
  | some v => if py_truthy v then Except.ok result else Except.ok []

/-! ## The shared workflow-status computation of publish_job_success
(utils.py lines 166-169) and publish_cache_copy (lines 107-110):
step == expanded_workflow_json["steps"][-1] and command == step["commands"][-1].
Negative indexing raises IndexError on an empty list; the conjunction is
evaluated left to right with short circuiting. -/

def last_step_command_status (expanded_workflow_json : WorkflowJson)
    (step : Step) (command : String) : Except PyErr Nat :=
  match expanded_workflow_json.steps.getLast? with
  | none => Except.error PyErr.indexError
  | some last_step =>
    if step = last_step then
      match step.commands.getLast? with
      | none => Except.error PyErr.indexError
      | some last_command => Except.ok (if command = last_command then 2 else 1)
    else Except.ok 1

/-! ## publish_job_success (utils.py lines 153-178) -/

/-- External collaborator reana_commons.utils.build_caching_info_message:
collects its five arguments into one payload. -/
def build_caching_info_message (job_spec : JobSpec) (job_id : String)
    (workflow_workspace : String) (step : Step) (cache_dir_path : String) :
    CachingInfo :=
  ⟨job_spec, job_id, workflow_workspace, step, cache_dir_path⟩

/-- utils.publish_job_success: computes the workflow status from the last
step and last command, then publishes a message with the finished bucket,
optional caching info (cache_dir_path is tested for truthiness), and the
pod name from the environment. -/
def publish_job_success (job_id : String) (job_spec : JobSpec)
    (workflow_workspace : String) (expanded_workflow_json : WorkflowJson)
    (step : Step) (command : String) (workflow_uuid : String)
    (cache_dir_path : Option String) (pod_name_env : Option String) :
    Except PyErr PublishedStatus := do
  let finished_jobs : JobBucket := ⟨1, [job_id]⟩
  let workflow_status ← last_step_command_status expanded_workflow_json step command
  let caching_info : Option CachingInfo :=
    match cache_dir_path with
    | some p =>
      if p = "" then none
      else some (build_caching_info_message job_spec job_id workflow_workspace step p)
    | none => none
  Except.ok
    { workflow_uuid := workflow_uuid
      status := workflow_status
      message :=
        { progress := some (build_progress_message none none (some finished_jobs) none none)
          caching_info := caching_info
          pod_name := some pod_name_env } }

/-! ## publish_cache_copy (utils.py lines 102-120) -/

/-- utils.publish_cache_copy: same status computation as publish_job_success;
the finished bucket is reported both as finished and as cached. -/
def publish_cache_copy (job_id : String) (step : Step)
    (expanded_workflow_json : WorkflowJson) (command : String)
    (workflow_uuid : String) : Except PyErr PublishedStatus := do
  let workflow_status ← last_step_command_status expanded_workflow_json step command
  let finished_jobs : JobBucket := ⟨1, [job_id]⟩
  Except.ok
    { workflow_uuid := workflow_uuid
      status := workflow_status
      message :=
        { progress :=
            some (build_progress_message none none (some finished_jobs) none (some finished_jobs))
          caching_info := none
          pod_name := none } }

/-! ## publish_workflow_start (utils.py lines 181-189) -/

/-- utils.publish_workflow_start: sums the command counts of the given steps
with a running total, then publishes status 1 with that total and an empty
job id list, plus the pod name from the environment. -/
def publish_workflow_start (workflow_steps : List Step) (workflow_uuid : String)
    (pod_name_env : Option String) : PublishedStatus :=
  let total_commands := workflow_steps.foldl (fun acc step => acc + step.commands.length) 0
  let total_jobs : JobBucket := ⟨total_commands, []⟩
  { workflow_uuid := workflow_uuid
    status := 1
    message :=
      { progress := some (build_progress_message (some total_jobs) none none none none)
        caching_info := none
        pod_name := some pod_name_env } }

/-! ## publish_workflow_failure (utils.py lines 192-200) -/

/-- utils.publish_workflow_failure: publishes status 3; the failed bucket is
built only when job_id is truthy (neither None nor the empty string). -/
def publish_workflow_failure (job_id : Option String) (workflow_uuid : String) :
    PublishedStatus :=
  let failed_jobs : Option JobBucket :=
    match job_id with
    | some j => if j = "" then none else some ⟨1, [j]⟩
    | none => none
  { workflow_uuid := workflow_uuid
    status := 3
    message :=
      { progress := some (build_progress_message none none none failed_jobs none)
        caching_info := none
        pod_name := none } }

/-! ## poll_job_status (utils.py lines 142-150)

The remote job controller is modelled as an oracle mapping the index of a
check_status call to the status string it reports; a fuel bound makes the
while loop total, returning none when the loop has not finished within the
bound. The observable behaviour is the trace of check_status calls and
sleep calls, in program order. -/

/-- One observable action of poll_job_status. -/
inductive PollEvent where
  | query (status : String)
  | sleepInterval (seconds : Nat)
deriving DecidableEq

/-- The loop guard: job_status.status not in [finished, failed, stopped],
negated. -/
def is_terminal (status : String) : Bool :=
  status == "finished" || status == "failed" || status == "stopped"

/-- The while loop of poll_job_status: with a non-terminal current status,
the body queries again and then sleeps, before the guard is re-checked. -/
def poll_job_status_loop (statuses : Nat → String) (interval : Nat) :
    Nat → Nat → String → List PollEvent × Option String
  | fuel, k, current =>
    if is_terminal current then ([], some current)
    else
      match fuel with
      | 0 => ([], none)
      | fuel' + 1 =>
        let s := statuses k
        let rest := poll_job_status_loop statuses interval fuel' (k + 1) s
        (PollEvent.query s :: PollEvent.sleepInterval interval :: rest.1, rest.2)

/-- utils.poll_job_status: one check_status call before the loop, then the
loop until the status is terminal. Returns the event trace and the final
status (none when fuel ran out). -/
def poll_job_status (statuses : Nat → String) (interval : Nat) (fuel : Nat) :
    List PollEvent × Option String :=
  let s0 := statuses 0
  let rest := poll_job_status_loop statuses interval fuel 1 s0
  (PollEvent.query s0 :: rest.1, rest.2)

/-- True when no two query events are adjacent in the trace: since the trace
alphabet is only queries and sleeps, this says a sleep happens between every
pair of consecutive status queries. -/
def sleeps_between_queries : List PollEvent → Bool
  | PollEvent.query _ :: PollEvent.query _ :: _ => false
  | _ :: rest => sleeps_between_queries rest
  | [] => true

/-- True when the trace is a sequence of query-then-sleep pairs, every sleep
lasting the polling interval. -/
def query_sleep_pairs (interval : Nat) : List PollEvent → Bool
  | [] => true
  | PollEvent.query _ :: PollEvent.sleepInterval n :: rest =>
    n == interval && query_sleep_pairs interval rest
  | _ => false

/-! ## copy_workspace_from_cache (utils.py lines 76-82)

Paths are modelled as component lists and a filesystem as an association
list from file paths to contents. The shell command cp -R result_path/*
workspace copies every file below result_path to the corresponding path
below workspace, overwriting files already there, and reports a nonzero
exit status when the glob matches nothing; os.system never raises and its
return value is discarded by the caller. -/

/-- A filesystem path, split into components. -/
abbrev FPath := List String

/-- A flat file store: paths with contents. -/
abbrev FileStore := List (FPath × String)

/-- Whether the first path is a proper ancestor directory of the second. -/
def path_under : FPath → FPath → Bool
  | [], [] => false
  | [], _ :: _ => true
  | _ :: _, [] => false
  | d :: ds, c :: cs => d == c && path_under ds cs

/-- The files of the store lying strictly below a directory. -/
def files_under (store : FileStore) (dir : FPath) : FileStore :=
  store.filter (fun e => path_under dir e.1)

/-- Replace the entries of the store at the given paths with the new
entries (overwrite), keeping everything else. -/
def overwrite_files (store : FileStore) (new_entries : FileStore) : FileStore :=
  new_entries ++ store.filter (fun e => !(new_entries.any (fun n => n.1 == e.1)))

/-- The effect and exit status of os.system with cp -R src/* dst: when some
file lies below src, every such file is copied below dst with src replaced
by dst in its path and the exit status is 0; when the glob is empty, cp
fails, leaving the store unchanged with a nonzero exit status. -/
def os_system_cp_r (store : FileStore) (src dst : FPath) : FileStore × Nat :=
  let hits := files_under store src
  if hits.isEmpty then (store, 1)
  else
    let copied := hits.map (fun e => (dst ++ e.1.drop src.length, e.2))
    (overwrite_files store copied, 0)

/-- utils.copy_workspace_from_cache: runs the shell copy and discards the
exit status; the Except layer records that the Python function itself can
never raise. -/
def copy_workspace_from_cache (store : FileStore) (result_path workflow_workspace : FPath) :
    Except PyErr FileStore :=
  Except.ok (os_system_cp_r store result_path workflow_workspace).1

/-! ## copy_workspace_to_cache (utils.py lines 85-99)

Here directories matter as well: os.makedirs raises FileExistsError when
the leaf directory already exists, and distutils copy_tree raises when the
source is not a directory. os.path.abspath with os.pardir is modelled by
path normalisation on absolute component lists. -/

/-- A filesystem with directories and files. -/
structure FileSystem where
  dirs : List FPath
  files : FileStore
deriving DecidableEq

/-- os.path.abspath of an absolute path containing pardir or curdir
components: fold away .. against the previous component (staying at the
root when there is none) and drop single dots. -/
def normalize_path (p : FPath) : FPath :=
  p.foldl
    (fun acc c =>
      if c = ".." then acc.dropLast
      else if c = "." then acc
      else acc ++ [c])
    []

/-- os.makedirs: raises FileExistsError when the leaf directory exists,
otherwise records the directory and all of its ancestors. -/
def os_makedirs (fs : FileSystem) (p : FPath) : Except PyErr FileSystem :=
  if p ∈ fs.dirs then Except.error PyErr.fileExistsError
  else Except.ok { fs with dirs := (List.range (p.length + 1)).map (fun k => p.take k) ++ fs.dirs }

/-- distutils.dir_util.copy_tree: raises when the source is not an existing
directory, otherwise copies every file below src to the corresponding path
below dst, overwriting what is there. -/
def copy_tree (fs : FileSystem) (src dst : FPath) : Except PyErr FileSystem :=
  if src ∈ fs.dirs then
    let copied := (files_under fs.files src).map (fun e => (dst ++ e.1.drop src.length, e.2))
    Except.ok { fs with files := overwrite_files fs.files copied }
  else Except.error PyErr.distutilsFileError

/-- The archive directory path computed by copy_workspace_to_cache:
os.path.abspath(os.path.join(workflow_workspace, os.pardir, archive, job_id)). -/
def cache_dir_path_of (workflow_workspace : FPath) (job_id : String) : FPath :=
  normalize_path (workflow_workspace ++ ["..", "archive", job_id])

/-- utils.copy_workspace_to_cache: computes the absolute archive path,
creates it with os.makedirs (raising when it already exists), copies the
workspace tree into it, and returns it. -/
def copy_workspace_to_cache (fs : FileSystem) (job_id : String)
    (workflow_workspace : FPath) : Except PyErr (FileSystem × FPath) := do
  let cache_dir := cache_dir_path_of workflow_workspace job_id
  let fs' ← os_makedirs fs cache_dir
  let fs'' ← copy_tree fs' workflow_workspace cache_dir
  Except.ok (fs'', cache_dir)

/-! ## Concrete fixtures used by witnesses and counterexamples -/

def step_a : Step := ⟨"a", ["cmd-a1"]⟩

def step_b : Step := ⟨"b", ["cmd-b1"]⟩

def step_c : Step := ⟨"c", ["cmd-c1", "cmd-c2"]⟩

def wf_abc : WorkflowJson := ⟨[step_a, step_b, step_c]⟩

def wf_ab : WorkflowJson := ⟨[step_a, step_b]⟩

def wf_dup : WorkflowJson := ⟨[step_a, step_a, step_b]⟩

def wf_dup_last : WorkflowJson := ⟨[step_a, step_b, step_a]⟩

def cex_statuses : Nat → String := fun k => if k = 0 then "running" else "finished"

def demo_store : FileStore := [(["cache", "res", "f.txt"], "data")]

def demo_fs : FileSystem :=
  ⟨[["home", "user", "workspace"]], [(["home", "user", "workspace", "data.txt"], "payload")]⟩

/-! ## Theorems -/

/-- Helper: a path extended by a non-empty relative part lies under the
directory. -/
theorem path_under_append (dir rest : FPath) (h : rest ≠ []) :
    path_under dir (dir ++ rest) = true := by
  induction dir with
  | nil =>
    cases rest with
    | nil => exact absurd rfl h
    | cons r rs => rfl
  | cons d ds ih =>
    simp [path_under, ih]

/-- C1: for every workflow step list and optional from_step and target_step
names (matched case-insensitively, with from_index defaulting to 0 and
target_index to the one-past-the-end length when the name is unset or not
found), get_targeted_workflow_steps returns exactly the contiguous slice
from from_index to target_index whenever from_index is at most
target_index, and returns the full step list whenever from_index exceeds
target_index. -/
theorem targeted_steps_slice_or_full (wf : WorkflowJson)
    (target_step from_step : Option String) :
    (resolved_from_index wf.steps from_step ≤ resolved_target_index wf.steps target_step →
      get_targeted_workflow_steps wf target_step from_step =
        (wf.steps.drop (resolved_from_index wf.steps from_step)).take
          (resolved_target_index wf.steps target_step - resolved_from_index wf.steps from_step)) ∧
    (resolved_target_index wf.steps target_step < resolved_from_index wf.steps from_step →
      get_targeted_workflow_steps wf target_step from_step = wf.steps) := by
  unfold get_targeted_workflow_steps pySlice
  refine ⟨fun h => ?_, fun h => ?_⟩
  · simp only [if_pos h, List.drop_take]
  · simp only [if_neg (Nat.not_le.mpr h)]

/-- C1 witness: on the three-step workflow, from b until B selects exactly
the slice containing the step named b. -/
theorem targeted_steps_slice_or_full_witness :
    resolved_from_index wf_abc.steps (some "b") ≤ resolved_target_index wf_abc.steps (some "B") ∧
    get_targeted_workflow_steps wf_abc (some "B") (some "b") =
      (wf_abc.steps.drop (resolved_from_index wf_abc.steps (some "b"))).take
        (resolved_target_index wf_abc.steps (some "B") - resolved_from_index wf_abc.steps (some "b")) :=
  ⟨by decide, (targeted_steps_slice_or_full wf_abc (some "B") (some "b")).1 (by decide)⟩

/-- C4 counterexample: with steps a then b, from_step b and target_step a
give from_index 1 and target_index 1, so the returned range is empty: it is
neither a non-empty slice nor the full list, although from lies after
target. -/
theorem targeted_steps_nonempty_claim_cex :
    get_targeted_workflow_steps wf_ab (some "a") (some "b") = [] ∧
    wf_ab.steps ≠ [] ∧
    get_targeted_workflow_steps wf_ab (some "a") (some "b") ≠ wf_ab.steps := by
  decide

/-- C4 amended: the returned step range is always a contiguous, possibly
empty slice of the full step list, and the full list is returned whenever
the resolved from index exceeds the resolved target index. -/
theorem targeted_steps_contiguous_slice (wf : WorkflowJson)
    (target_step from_step : Option String) :
    contiguous_slice_of (get_targeted_workflow_steps wf target_step from_step) wf.steps ∧
    (resolved_target_index wf.steps target_step < resolved_from_index wf.steps from_step →
      get_targeted_workflow_steps wf target_step from_step = wf.steps) := by
  constructor
  · unfold get_targeted_workflow_steps pySlice contiguous_slice_of
    by_cases h : resolved_from_index wf.steps from_step ≤ resolved_target_index wf.steps target_step
    · simp only [if_pos h]
      refine ⟨(wf.steps.take (resolved_target_index wf.steps target_step)).take
               (resolved_from_index wf.steps from_step),
             wf.steps.drop (resolved_target_index wf.steps target_step), ?_⟩
      rw [List.take_append_drop, List.take_append_drop]
    · simp only [if_neg h]
      exact ⟨[], [], by simp⟩
  · intro h
    unfold get_targeted_workflow_steps
    simp only [if_neg (Nat.not_le.mpr h)]

/-- C4 amended witness: from c until a is inconsistent on the three-step
workflow and yields the full list. -/
theorem targeted_steps_contiguous_slice_witness :
    resolved_target_index wf_abc.steps (some "a") < resolved_from_index wf_abc.steps (some "c") ∧
    get_targeted_workflow_steps wf_abc (some "a") (some "c") = wf_abc.steps :=
  ⟨by decide, (targeted_steps_contiguous_slice wf_abc (some "a") (some "c")).2 (by decide)⟩

/-- C3 counterexample: on a parsed body without the cached key, check_cache
raises KeyError instead of returning the empty miss result. -/
theorem check_cache_missing_key_cex :
    check_cache [] = Except.error PyErr.keyError ∧ (check_cache []).toOption = none :=
  ⟨rfl, rfl⟩

/-- C3 amended: when the parsed body carries a cached field that is not
truthy, check_cache returns the empty miss result; when the cached key is
absent entirely, it raises KeyError. -/
theorem check_cache_falsy_field_miss (body : JObj) :
    (body.lookup "cached" = none → check_cache body = Except.error PyErr.keyError) ∧
    (∀ v, body.lookup "cached" = some v → py_truthy v = false →
      check_cache body = Except.ok []) := by
  constructor
  · intro h
    unfold check_cache
    rw [h]
  · intro v hv htruthy
    unfold check_cache
    rw [hv]
    simp [htruthy]

/-- C3 amended witness: a body with cached set to false is reported as a
miss. -/
theorem check_cache_falsy_field_miss_witness :
    check_cache [("cached", JVal.bool false)] = Except.ok [] :=
  (check_cache_falsy_field_miss [("cached", JVal.bool false)]).2 (JVal.bool false) rfl rfl

/-- Helper: the status shared by publish_job_success and publish_cache_copy
equals 2 exactly when the step is the structurally last step and the
command is its last command, provided the step list has a last element and
the command list of the step is non-empty when the step is that last
element. -/
theorem last_step_command_status_eq (json : WorkflowJson) (step : Step) (command : String)
    (last_step : Step) (hlast : json.steps.getLast? = some last_step)
    (hcmds : step = last_step → step.commands ≠ []) :
    last_step_command_status json step command =
      Except.ok (if step = last_step ∧ step.commands.getLast? = some command then 2 else 1) := by
  unfold last_step_command_status
  rw [hlast]
  by_cases hs : step = last_step
  · simp only [if_pos hs]
    cases hgl : step.commands.getLast? with
    | none => exact absurd (List.getLast?_eq_none_iff.mp hgl) (hcmds hs)
    | some c =>
      by_cases hc : command = c
      · subst hc
        simp [hs, hgl]
      · have hc2 : ¬(c = command) := fun e => hc e.symm
        simp [hs, hgl, hc, hc2]
  · have hns : ¬(step = last_step ∧ step.commands.getLast? = some command) := fun h => hs h.1
    simp [hs, hns]

/-- C2 counterexample: on a workflow json with an empty step list the two
publishers raise IndexError from the negative index, publishing nothing,
instead of emitting a status 1 event. -/
theorem publish_status_empty_steps_cex :
    publish_job_success "job-1" [] "ws" ⟨[]⟩ step_a "cmd-a1" "uuid" none none =
      Except.error PyErr.indexError ∧
    publish_cache_copy "job-1" step_a ⟨[]⟩ "cmd-a1" "uuid" = Except.error PyErr.indexError :=
  ⟨rfl, rfl⟩

/-- C2 amended: for every workflow json whose step list has a last element,
and every step whose command list is non-empty whenever the step equals
that last element, both the success and the cache-hit publishers emit one
event whose status is 2 exactly when the step equals the last step and the
command equals the last command of that step, and 1 in every other case. -/
theorem publish_status_last_step_last_command (job_id : String) (job_spec : JobSpec)
    (ws : String) (json : WorkflowJson) (step : Step) (command : String)
    (uuid : String) (cdp pod : Option String)
    (last_step : Step) (hlast : json.steps.getLast? = some last_step)
    (hcmds : step = last_step → step.commands ≠ []) :
    (publish_job_success job_id job_spec ws json step command uuid cdp pod).toOption.map
        PublishedStatus.status =
      some (if step = last_step ∧ step.commands.getLast? = some command then 2 else 1) ∧
    (publish_cache_copy job_id step json command uuid).toOption.map PublishedStatus.status =
      some (if step = last_step ∧ step.commands.getLast? = some command then 2 else 1) := by
  have h := last_step_command_status_eq json step command last_step hlast hcmds
  constructor <;>
    simp [publish_job_success, publish_cache_copy, h, Except.toOption, Bind.bind,
      Except.instMonad, Except.bind]

/-- C2 amended witness: the last command of the last step of the three-step
workflow yields status 2 from both publishers. -/
theorem publish_status_last_step_last_command_witness :
    (publish_job_success "job-1" [] "ws" wf_abc step_c "cmd-c2" "uuid" none none).toOption.map
        PublishedStatus.status =
      some (if step_c = step_c ∧ step_c.commands.getLast? = some "cmd-c2" then 2 else 1) ∧
    (publish_cache_copy "job-1" step_c wf_abc "cmd-c2" "uuid").toOption.map
        PublishedStatus.status =
      some (if step_c = step_c ∧ step_c.commands.getLast? = some "cmd-c2" then 2 else 1) :=
  publish_status_last_step_last_command "job-1" [] "ws" wf_abc step_c "cmd-c2" "uuid"
    none none step_c rfl (fun _ => by decide)

/-- C10 counterexample: the workflow whose steps are a, a, b contains two
structurally equal step entries, yet completing the last command of the
earlier duplicate publishes status 1, not 2, because the duplicate does not
equal the final step b. -/
theorem duplicate_step_early_cex :
    wf_dup.steps = [step_a, step_a, step_b] ∧
    step_a.commands.getLast? = some "cmd-a1" ∧
    (publish_job_success "job-1" [] "ws" wf_dup step_a "cmd-a1" "uuid" none none).toOption.map
        PublishedStatus.status = some 1 ∧
    (publish_cache_copy "job-1" step_a wf_dup "cmd-a1" "uuid").toOption.map
        PublishedStatus.status = some 1 :=
  ⟨rfl, rfl, rfl, rfl⟩

/-- C10 amended: the publishers decide finality by structural equality, so
when an earlier step entry structurally equals the last step of the json,
completing the last command of that earlier entry already publishes status
2 even though commands of later steps remain. -/
theorem duplicate_of_last_step_finishes (json : WorkflowJson) (i : Nat)
    (_hi : i + 1 < json.steps.length) (step : Step) (_hstep : json.steps[i]? = some step)
    (hlast : json.steps.getLast? = some step)
    (command : String) (hcmd : step.commands.getLast? = some command)
    (job_id : String) (job_spec : JobSpec) (ws uuid : String) (cdp pod : Option String) :
    (publish_job_success job_id job_spec ws json step command uuid cdp pod).toOption.map
        PublishedStatus.status = some 2 ∧
    (publish_cache_copy job_id step json command uuid).toOption.map
        PublishedStatus.status = some 2 := by
  have h := last_step_command_status_eq json step command step hlast
    (fun _ hn => by rw [hn] at hcmd; exact Option.noConfusion hcmd)
  rw [if_pos ⟨rfl, hcmd⟩] at h
  constructor <;>
    simp [publish_job_success, publish_cache_copy, h, Except.toOption, Bind.bind,
      Except.instMonad, Except.bind]

/-- C10 amended witness: in the workflow a, b, a the first entry equals the
last step, so completing its last command publishes status 2 while the
command of step b still remains. -/
theorem duplicate_of_last_step_finishes_witness :
    (publish_job_success "job-1" [] "ws" wf_dup_last step_a "cmd-a1" "uuid" none
        none).toOption.map PublishedStatus.status = some 2 ∧
    (publish_cache_copy "job-1" step_a wf_dup_last "cmd-a1" "uuid").toOption.map
        PublishedStatus.status = some 2 :=
  duplicate_of_last_step_finishes wf_dup_last 0 (by decide) step_a rfl rfl "cmd-a1" rfl
    "job-1" [] "ws" "uuid" none none

/-- C5 counterexample: when the first status query reports running and the
second reports finished, the trace holds the two queries back to back with
no sleep between them, and one sleep after the final query; the loop still
returns the terminal status. -/
theorem poll_no_sleep_between_first_queries_cex :
    (poll_job_status cex_statuses 9 5).1 =
      [PollEvent.query "running", PollEvent.query "finished", PollEvent.sleepInterval 9] ∧
    (poll_job_status cex_statuses 9 5).2 = some "finished" ∧
    sleeps_between_queries (poll_job_status cex_statuses 9 5).1 = false := by
  refine ⟨by decide, by decide, by decide⟩

/-- Helper: every run of the polling while loop produces a trace of
query-then-sleep pairs and only returns terminal statuses. -/
theorem poll_loop_shape (statuses : Nat → String) (interval : Nat) (fuel : Nat) :
    ∀ k current,
      query_sleep_pairs interval (poll_job_status_loop statuses interval fuel k current).1 = true ∧
      ∀ s, (poll_job_status_loop statuses interval fuel k current).2 = some s →
        is_terminal s = true := by
  induction fuel with
  | zero =>
    intro k current
    unfold poll_job_status_loop
    by_cases h : is_terminal current
    · simp [h, query_sleep_pairs]
    · simp [h, query_sleep_pairs]
  | succ fuel ih =>
    intro k current
    unfold poll_job_status_loop
    by_cases h : is_terminal current
    · simp [h, query_sleep_pairs]
    · simp only [h, if_neg, Bool.false_eq_true, reduceIte]
      constructor
      · unfold query_sleep_pairs
        simp [(ih (k + 1) (statuses k)).1]
      · exact (ih (k + 1) (statuses k)).2

/-- C5 amended: poll_job_status returns only terminal statuses and issues
its first query before any wait; after that first query the trace is a
sequence of query-then-sleep pairs at the polling interval, so the second
query follows the first immediately, sleeps separate consecutive queries
from the second query onward, and one final sleep follows the terminal
query. -/
theorem poll_terminal_and_trace_shape (statuses : Nat → String) (interval fuel : Nat) :
    (∀ s, (poll_job_status statuses interval fuel).2 = some s → is_terminal s = true) ∧
    ∃ rest, (poll_job_status statuses interval fuel).1 =
        PollEvent.query (statuses 0) :: rest ∧
      query_sleep_pairs interval rest = true := by
  unfold poll_job_status
  exact ⟨(poll_loop_shape statuses interval fuel 1 (statuses 0)).2,
    ⟨_, rfl, (poll_loop_shape statuses interval fuel 1 (statuses 0)).1⟩⟩

/-- C5 amended witness: a job that is already finished at the first query
is returned as terminal. -/
theorem poll_terminal_and_trace_shape_witness :
    is_terminal "finished" = true ∧
    ∃ rest, (poll_job_status (fun _ => "finished") 7 3).1 =
        PollEvent.query "finished" :: rest ∧
      query_sleep_pairs 7 rest = true :=
  ⟨(poll_terminal_and_trace_shape (fun _ => "finished") 7 3).1 "finished" rfl,
   (poll_terminal_and_trace_shape (fun _ => "finished") 7 3).2⟩

/-- C6 counterexample: with no file under the cached result path the shell
copy fails with a nonzero exit status, yet copy_workspace_from_cache
returns successfully with the store unchanged instead of reporting an
error. -/
theorem restore_missing_source_no_error_cex :
    (os_system_cp_r ([] : FileStore) ["cache", "res"] ["ws"]).2 = 1 ∧
    copy_workspace_from_cache ([] : FileStore) ["cache", "res"] ["ws"] = Except.ok [] :=
  ⟨rfl, rfl⟩

/-- C6 amended: copy_workspace_from_cache recursively copies the cached
result tree into the workspace, overwriting files already there, but never
reports an error: when the source path holds nothing the failed shell copy
is ignored and the function returns successfully with the store unchanged. -/
theorem restore_ignores_copy_failure (store : FileStore) (result_path ws : FPath) :
    (files_under store result_path = [] →
      copy_workspace_from_cache store result_path ws = Except.ok store) ∧
    (∀ rel c, rel ≠ [] → (result_path ++ rel, c) ∈ store →
      ∃ store', copy_workspace_from_cache store result_path ws = Except.ok store' ∧
        (ws ++ rel, c) ∈ store') := by
  constructor
  · intro h
    unfold copy_workspace_from_cache os_system_cp_r
    simp [h]
  · intro rel c hrel hmem
    have hmem2 : (result_path ++ rel, c) ∈ files_under store result_path :=
      List.mem_filter.mpr ⟨hmem, path_under_append result_path rel hrel⟩
    have hne : ¬((files_under store result_path).isEmpty = true) := by
      rw [List.isEmpty_iff]
      exact List.ne_nil_of_mem hmem2
    unfold copy_workspace_from_cache os_system_cp_r
    rw [if_neg hne]
    refine ⟨_, rfl, ?_⟩
    unfold overwrite_files
    apply List.mem_append_left
    apply List.mem_map.mpr
    refine ⟨(result_path ++ rel, c), hmem2, ?_⟩
    simp [List.drop_left]

/-- C6 amended witness: a cached file is copied into the workspace. -/
theorem restore_ignores_copy_failure_witness :
    ∃ store', copy_workspace_from_cache demo_store ["cache", "res"] ["ws"] = Except.ok store' ∧
      (["ws", "f.txt"], "data") ∈ store' :=
  (restore_ignores_copy_failure demo_store ["cache", "res"] ["ws"]).2 ["f.txt"] "data"
    (by decide) (by decide)

/-- C7: for an existing workspace directory, copy_workspace_to_cache fails
with an error when the archive directory resolved from
workspace/../archive/jobId already exists, and otherwise creates that
directory, deep-copies the workspace files into it, and returns it. -/
theorem cache_persist_fresh_dir (fs : FileSystem) (job_id : String) (ws : FPath)
    (hws : ws ∈ fs.dirs) :
    (cache_dir_path_of ws job_id ∈ fs.dirs →
      copy_workspace_to_cache fs job_id ws = Except.error PyErr.fileExistsError) ∧
    (cache_dir_path_of ws job_id ∉ fs.dirs →
      ∃ fs', copy_workspace_to_cache fs job_id ws =
          Except.ok (fs', cache_dir_path_of ws job_id) ∧
        cache_dir_path_of ws job_id ∈ fs'.dirs ∧
        ∀ rel c, rel ≠ [] → (ws ++ rel, c) ∈ fs.files →
          (cache_dir_path_of ws job_id ++ rel, c) ∈ fs'.files) := by
  constructor
  · intro h
    unfold copy_workspace_to_cache os_makedirs
    simp [h, Bind.bind, Except.instMonad, Except.bind]
  · intro h
    have hws' : ws ∈
        (List.range ((cache_dir_path_of ws job_id).length + 1)).map
          (fun k => (cache_dir_path_of ws job_id).take k) ++ fs.dirs :=
      List.mem_append_right _ hws
    unfold copy_workspace_to_cache os_makedirs copy_tree
    simp only [h, hws', if_true, if_false, reduceIte, Bind.bind, Except.instMonad, Except.bind]
    refine ⟨_, rfl, ?_, ?_⟩
    · apply List.mem_append_left
      apply List.mem_map.mpr
      exact ⟨(cache_dir_path_of ws job_id).length,
        List.mem_range.mpr (Nat.lt_succ_self _), List.take_length _⟩
    · intro rel c hrel hmem
      have hmem2 : (ws ++ rel, c) ∈ files_under fs.files ws :=
        List.mem_filter.mpr ⟨hmem, path_under_append ws rel hrel⟩
      unfold overwrite_files
      apply List.mem_append_left
      apply List.mem_map.mpr
      refine ⟨(ws ++ rel, c), hmem2, ?_⟩
      simp [List.drop_left]

/-- C7 witness: archiving job-7 from an existing workspace creates the
absolute sibling archive directory and copies the workspace file into it. -/
theorem cache_persist_fresh_dir_witness :
    cache_dir_path_of ["home", "user", "workspace"] "job-7" =
      ["home", "user", "archive", "job-7"] ∧
    ∃ fs', copy_workspace_to_cache demo_fs "job-7" ["home", "user", "workspace"] =
        Except.ok (fs', cache_dir_path_of ["home", "user", "workspace"] "job-7") ∧
      cache_dir_path_of ["home", "user", "workspace"] "job-7" ∈ fs'.dirs ∧
      ∀ rel c, rel ≠ [] → (["home", "user", "workspace"] ++ rel, c) ∈ demo_fs.files →
        (cache_dir_path_of ["home", "user", "workspace"] "job-7" ++ rel, c) ∈ fs'.files :=
  ⟨by decide,
   (cache_persist_fresh_dir demo_fs "job-7" ["home", "user", "workspace"]
      (by decide)).2 (by decide)⟩

/-- Helper: the running-total loop of publish_workflow_start computes the
sum of the command counts. -/
theorem foldl_add_command_counts (l : List Step) (acc : Nat) :
    l.foldl (fun a step => a + step.commands.length) acc =
      acc + (l.map (fun s => s.commands.length)).sum := by
  induction l generalizing acc with
  | nil => simp
  | cons hd tl ih => simp [ih, Nat.add_assoc]

/-- C8: publish_workflow_start publishes one event with status 1 whose
total bucket count is the sum of the command counts of all given steps and
whose job id set is empty. -/
theorem workflow_start_total_and_status (steps : List Step) (uuid : String)
    (pod : Option String) :
    (publish_workflow_start steps uuid pod).status = 1 ∧
    (publish_workflow_start steps uuid pod).message.progress =
      some (build_progress_message
        (some ⟨(steps.map (fun s => s.commands.length)).sum, []⟩) none none none none) := by
  refine ⟨rfl, ?_⟩
  simp [publish_workflow_start, foldl_add_command_counts]

/-- C9: publish_workflow_failure publishes status 3; with a truthy job id
the failed bucket holds exactly that id with count 1, and with an absent
(falsy) job id the failed bucket payload is omitted. -/
theorem workflow_failure_status_and_bucket (job_id : Option String) (uuid : String) :
    (publish_workflow_failure job_id uuid).status = 3 ∧
    (∀ j, job_id = some j → j ≠ "" →
      (publish_workflow_failure job_id uuid).message.progress =
        some (build_progress_message none none none (some ⟨1, [j]⟩) none)) ∧
    (job_id = none ∨ job_id = some "" →
      (publish_workflow_failure job_id uuid).message.progress =
        some (build_progress_message none none none none none)) := by
  refine ⟨rfl, ?_, ?_⟩
  · rintro j rfl hj
    simp [publish_workflow_failure, hj]
  · rintro (rfl | rfl) <;> rfl

/-- C9 witness: a supplied job id lands in the failed bucket with count 1. -/
theorem workflow_failure_status_and_bucket_witness :
    (publish_workflow_failure (some "job-1") "uuid").message.progress =
      some (build_progress_message none none none (some ⟨1, ["job-1"]⟩) none) :=
  (workflow_failure_status_and_bucket (some "job-1") "uuid").2.1 "job-1" rfl (by decide)
